import Mathlib

/-!
Verification of the conversational retrieval-and-answer pipeline of the
`systemrag` repository, shallowly embedded from
`src/system_rag/search/retrieval/{reranker,query_transformer,rag_pipeline,image_fetcher}.py`
and `src/system_rag/models/data_models.py`.

External services (OpenAI chat completions, Voyage embeddings, the Astra
vector store, the Cloudflare R2 object store) are modelled as oracle inputs:
each call site receives the behaviour of the corresponding external call
(either a returned payload or a raised exception) as an explicit argument.
Python floats appear only as data that is copied around by the modelled
components (never computed with), so `similarity` is embedded as `Rat`.
-/

namespace SystemRag

/-! ### String primitives mirroring the Python operations used by the code -/

/-- Whether `needle` is a leading segment of `hay` (character lists). -/
def charListStarts : List Char → List Char → Bool
  | [], _ => true
  | _ :: _, [] => false
  | a :: as, b :: bs => a == b && charListStarts as bs

/-- Whether `needle` occurs contiguously inside `hay` (character lists);
mirrors Python's `needle in hay` on strings. -/
def charListContains (hay needle : List Char) : Bool :=
  match hay with
  | [] => needle.isEmpty
  | _ :: t => charListStarts needle hay || charListContains t needle

/-- Python's substring test `needle in hay`. -/
def strContains (hay needle : String) : Bool :=
  charListContains hay.toList needle.toList

/-- Python `str.lower()` (ASCII case folding, which covers every case-bearing
character these components compare). -/
def pyLower (s : String) : String :=
  ⟨s.data.map Char.toLower⟩

/-- Python `str.startswith(pre)`. -/
def pyStarts (s pre : String) : Bool :=
  charListStarts pre.data s.data

/-- The whitespace characters stripped by Python `str.strip()`
(space, tab, newline, carriage return, vertical tab, form feed). -/
def isPyWs (c : Char) : Bool :=
  c == ' ' || c == '\t' || c == '\n' || c == '\r' || c == Char.ofNat 11 || c == Char.ofNat 12

/-- Python `str.strip()`: drop whitespace from both ends. -/
def pyStrip (s : String) : String :=
  ⟨((s.data.dropWhile isPyWs).reverse.dropWhile isPyWs).reverse⟩

/-- Split a character list at every `'\n'`. -/
def splitNlL : List Char → List (List Char)
  | [] => [[]]
  | c :: t =>
    match splitNlL t with
    | [] => [[c]]
    | h :: r => if c == '\n' then [] :: h :: r else (c :: h) :: r

/-- Python `str.splitlines()`, embedded as a split on `'\n'` (the extra
line separators `splitlines` recognises never carry parseable content in
the modelled scanners, and a trailing empty piece matches no marker). -/
def pySplitlines (s : String) : List String :=
  (splitNlL s.data).map String.mk

/-- Replace every (non-overlapping, leftmost-first) occurrence of `pat`
inside the list, with an explicit fuel bound; mirrors Python
`str.replace(pat, rep)` for non-empty `pat`. -/
def replaceFuelL (rep pat : List Char) : Nat → List Char → List Char
  | _, [] => []
  | 0, l => l
  | fuel + 1, c :: t =>
    if charListStarts pat (c :: t) && !pat.isEmpty then
      rep ++ replaceFuelL rep pat fuel ((c :: t).drop pat.length)
    else
      c :: replaceFuelL rep pat fuel t

/-- Python `str.replace(pat, rep)` for non-empty `pat`. -/
def pyReplace (s pat rep : String) : String :=
  ⟨replaceFuelL rep.data pat.data s.data.length s.data⟩

/-- All maximal runs of decimal digits in a character list, read as numbers;
mirrors `re.findall(r'\d+', line)` followed by `int(...)`. -/
def digitRunsAux : List Char → Option Nat → List Nat → List Nat
  | [], cur, acc => acc ++ cur.toList
  | c :: rest, cur, acc =>
    if c.isDigit then
      digitRunsAux rest (some (cur.getD 0 * 10 + (c.toNat - 48))) acc
    else
      digitRunsAux rest none (acc ++ cur.toList)

/-- All integers appearing as digit runs in `s`, in order of appearance. -/
def digitRuns (s : String) : List Nat :=
  digitRunsAux s.toList none []

/-- Python truthiness of an optional string (`None` and `""` are falsy). -/
def pyTruthyOptStr : Option String → Bool
  | none => false
  | some s => !(s == "")

/-- Python `str(x)` for an optional integer (`None` prints as `"None"`). -/
def pyOptIntStr : Option Int → String
  | none => "None"
  | some i => toString i

/-! ### QueryTransformer.needs_rag
(`src/system_rag/search/retrieval/query_transformer.py`, lines 300-302) -/

/-- Model of `QueryTransformer.needs_rag`: `"not applicable" not in transformed_query.lower()`. -/
def needs_rag (transformed_query : String) : Bool :=
  !(strContains (pyLower transformed_query) "not applicable")

/-! ### Bounded FIFO caches
`QueryTransformer._cache_result` (query_transformer.py, lines 284-291) and
`ImageFetcher._cache_image` (image_fetcher.py, lines 173-182).  A Python
`dict` keeps insertion order and `next(iter(d))` is the oldest inserted key,
so a cache is embedded as its association list in insertion order; both
call sites only insert keys that are absent (they are guarded by a
cache-membership lookup), which insertion-order-wise appends at the end. -/

/-- Model of `QueryTransformer._cache_result`: evict the oldest entry when the cache
already holds at least `max_cache_size` entries, then store the new one. -/
def cache_result (max_cache_size : Nat) (cache : List (String × String))
    (key result : String) : List (String × String) :=
  (if max_cache_size ≤ cache.length then cache.drop 1 else cache) ++ [(key, result)]

/-- Model of `ImageFetcher._cache_image`: identical eviction logic for the image cache. -/
def cache_image (max_cache_size : Nat) (image_cache : List (String × String))
    (url image_base64 : String) : List (String × String) :=
  (if max_cache_size ≤ image_cache.length then image_cache.drop 1 else image_cache)
    ++ [(url, image_base64)]

/-! ### Data model (`src/system_rag/models/data_models.py`) -/

/-- Model of `SearchResult` (data_models.py, lines 118-131).  `metadata` is embedded
as a string association list; the modelled components only copy it. -/
structure SearchResult where
  document_id : String
  content : String
  document_name : String
  page_number : Option Int
  similarity : Rat
  image_url : Option String
  image_filename_r2 : Option String
  image_base64 : Option String
  has_image : Bool
  metadata : List (String × String)
deriving DecidableEq, Repr, Inhabited

/-- Model of `RerankedResult` (data_models.py, lines 144-152).  The heterogeneous
`config` dict is embedded with stringified values. -/
structure RerankedResult where
  selected_docs : List SearchResult
  justification : String
  indices : List Nat
  total_candidates : Nat
  model : String
  query : String
  config : List (String × String)
deriving DecidableEq, Repr

/-- Behaviour of one external LLM chat-completion call: the call either
raises an exception carrying a message, or returns the completion text. -/
inductive LLMBehavior where
  | throws (msg : String)
  | returns (text : String)
deriving DecidableEq, Repr

/-! ### SearchReranker (`src/system_rag/search/retrieval/reranker.py`)
The prompt built by `_build_rerank_prompt` only feeds the LLM call, whose
reply is modelled as an arbitrary `LLMBehavior`, so the prompt text plays
no role in any modelled property and is not reproduced. -/

/-- Constructor-time configuration of `SearchReranker` (reranker.py, lines 28-45). -/
structure SearchReranker where
  model : String
  max_tokens : Nat
  max_candidates : Nat
deriving DecidableEq, Repr

/-- One step of the line scanner of `SearchReranker._parse_rerank_response`
(reranker.py, lines 189-198): a stripped line starting (case-folded) with
the indices marker replaces the selected numbers with every integer of the
line that lies in `[1, n]`; a line starting with the justification marker
replaces the justification. -/
def parseLine (n : Nat) (st : List Nat × String) (raw : String) : List Nat × String :=
  if pyStarts (pyLower (pyStrip raw)) "páginas_selecionadas" then
    ((digitRuns (pyStrip raw)).filter (fun k => 1 ≤ k && k ≤ n), st.2)
  else if pyStarts (pyStrip raw) "Justificativa:" then
    (st.1, pyStrip (pyReplace (pyStrip raw) "Justificativa:" ""))
  else st

/-- The scanner state after processing every line of the response
(reranker.py, lines 185-198); Python's `splitlines` is embedded as a split
on `'\n'` (a possible trailing empty line matches neither marker). -/
def parsed_state (response_text : String) (n : Nat) : List Nat × String :=
  (pySplitlines response_text).foldl (parseLine n) ([], "Justificativa não fornecida.")

/-- Model of `SearchReranker._parse_rerank_response` (reranker.py, lines 179-211).
When no valid number was parsed and `candidates` is empty,
`candidates[0]` raises `IndexError` (caught by the caller's handler),
embedded as the `.error` case. -/
def parse_rerank_response (response_text : String) (candidates : List SearchResult) :
    Except String (List SearchResult × String × List Nat) :=
  if (parsed_state response_text candidates.length).1.isEmpty then
    match candidates with
    | [] => .error "list index out of range"
    | c :: _ => .ok ([c], "Fallback: seleção automática do primeiro candidato", [0])
  else
    .ok ((parsed_state response_text candidates.length).1.filterMap
           (fun num => candidates.get? (num - 1)),
         (parsed_state response_text candidates.length).2,
         (parsed_state response_text candidates.length).1.map (fun num => num - 1))

/-- Model of `SearchReranker._create_empty_result` (reranker.py, lines 213-222). -/
def create_empty_result (r : SearchReranker) (query : String) : RerankedResult :=
  { selected_docs := [], justification := "Nenhum candidato disponível",
    indices := [], total_candidates := 0, model := r.model, query := query, config := [] }

/-- Model of `SearchReranker._single_candidate_result` (reranker.py, lines 224-233). -/
def single_candidate_result (r : SearchReranker) (query : String)
    (candidate : SearchResult) : RerankedResult :=
  { selected_docs := [candidate],
    justification := "Único candidato disponível: " ++ candidate.document_name
      ++ ", página " ++ pyOptIntStr candidate.page_number,
    indices := [0], total_candidates := 1, model := r.model, query := query, config := [] }

/-- The `except` handler of `SearchReranker.rerank_results`
(reranker.py, lines 109-121): first `max_selected` of the raw results, a
justification naming the error, and an error-carrying config. -/
def rerank_fallback_result (r : SearchReranker) (query : String)
    (search_results : List SearchResult) (max_selected : Nat) (e : String) : RerankedResult :=
  let fallback_selected := search_results.take max_selected
  { selected_docs := fallback_selected,
    justification := "Fallback devido a erro: " ++ e,
    indices := List.range fallback_selected.length,
    total_candidates := search_results.length,
    model := r.model, query := query, config := [("error", e)] }

/-- Model of `SearchReranker.rerank_results` (reranker.py, lines 47-121).  The LLM
call happens only on the path with ≠ 1 capped candidates; an exception
there (or the `IndexError` inside the parse fallback) is caught by the
surrounding handler. -/
def rerank_results (r : SearchReranker) (llm : LLMBehavior) (query : String)
    (search_results : List SearchResult) (max_selected : Nat)
    (include_images : Bool) : RerankedResult :=
  if search_results.isEmpty then
    create_empty_result r query
  else
    let candidates := search_results.take r.max_candidates
    if candidates.length = 1 then
      single_candidate_result r query (candidates.headD default)
    else
      match llm with
      | .throws e => rerank_fallback_result r query search_results max_selected e
      | .returns text =>
        match parse_rerank_response text candidates with
        | .error e => rerank_fallback_result r query search_results max_selected e
        | .ok (selected_docs, justification, indices) =>
          { selected_docs := selected_docs, justification := justification,
            indices := indices, total_candidates := candidates.length,
            model := r.model, query := query,
            config := [("max_selected", toString max_selected),
                       ("include_images", toString include_images),
                       ("max_tokens", toString r.max_tokens)] }

/-! ### ImageFetcher (`src/system_rag/search/retrieval/image_fetcher.py`)
`fetch_image_as_base64` (download + image verification + cache) is the
external image-fetching effect; per URL its observable outcome within one
batch is the optional base64 payload, modelled as the oracle
`fetch : String → Option String` (`none` covers HTTP failure, an invalid
image payload, and raised exceptions, all of which return `None`). -/

/-- The per-element body of the loop of `ImageFetcher.enrich_search_results`
(image_fetcher.py, lines 146-169): fetch only when `image_url` is truthy
and `image_base64` is falsy; on a truthy fetched payload rebuild the
`SearchResult` with the base64 attached and `has_image = True`, otherwise
keep the original element. -/
def enrich_one (fetch : String → Option String) (result : SearchResult) : SearchResult :=
  if pyTruthyOptStr result.image_url && !(pyTruthyOptStr result.image_base64) then
    match result.image_url with
    | none => result
    | some url =>
      match fetch url with
      | none => result
      | some image_base64 =>
        if image_base64 = "" then result
        else
          { document_id := result.document_id, content := result.content,
            document_name := result.document_name, page_number := result.page_number,
            similarity := result.similarity, image_url := result.image_url,
            image_filename_r2 := result.image_filename_r2,
            image_base64 := some image_base64, has_image := true,
            metadata := result.metadata }
  else result

/-- Model of `ImageFetcher.enrich_search_results` (image_fetcher.py, lines 134-171):
the loop appends one (possibly enriched) element per input element. -/
def enrich_search_results (fetch : String → Option String)
    (search_results : List SearchResult) : List SearchResult :=
  search_results.map (enrich_one fetch)

/-! ### RAGPipeline (`src/system_rag/search/retrieval/rag_pipeline.py`) -/

/-- The dict returned by `RAGPipeline._generate_simple_response`
(rag_pipeline.py, lines 170-187). -/
structure SimpleResponse where
  query : String
  answer : String
  requires_rag : Bool
  type : String
deriving DecidableEq, Repr

/-- The greeting lexicon of `_generate_simple_response` (rag_pipeline.py, line 172). -/
def simple_greetings : List String :=
  ["oi", "olá", "hello", "hi", "boa tarde", "bom dia", "boa noite"]

/-- The thanks lexicon of `_generate_simple_response` (rag_pipeline.py, line 173). -/
def simple_thanks : List String :=
  ["obrigado", "obrigada", "thanks", "valeu"]

/-- Model of `RAGPipeline._generate_simple_response` (rag_pipeline.py, lines 170-187). -/
def generate_simple_response (query : String) : SimpleResponse :=
  let answer :=
    if simple_greetings.any (fun greeting => strContains (pyLower query) greeting) then
      "Olá! Sou seu assistente para consultas sobre documentos. Como posso ajudar você hoje?"
    else if simple_thanks.any (fun thank => strContains (pyLower query) thank) then
      "De nada! Fico feliz em ajudar. Há mais alguma coisa que gostaria de saber?"
    else
      "Como posso ajudar você com consultas sobre os documentos? Faça uma pergunta específica e eu buscarei as informações relevantes."
  { query := query, answer := answer, requires_rag := false, type := "simple_response" }

/-- Model of `RAGPipeline._verify_relevance` (rag_pipeline.py, lines 189-222): empty
selection returns `False` before any call; an exception in the LLM call
returns `True` (the conservative fallback); otherwise the reply counts as
affirmative when its lowercase form contains `"sim"`. -/
def verify_relevance (llm : LLMBehavior) (query : String)
    (selected_docs : List SearchResult) : Bool :=
  if selected_docs.isEmpty then false
  else
    match llm with
    | .throws _ => true
    | .returns verification_result => strContains (pyLower verification_result) "sim"

/-- Model of `RAGPipeline._generate_contextual_answer` (rag_pipeline.py, lines 224-290):
the prompt only feeds the LLM call; an exception is converted into the
degraded string `"Erro ao processar resposta: ..."`. -/
def generate_contextual_answer (llm : LLMBehavior) (query : String)
    (selected_docs : List SearchResult) : String :=
  match llm with
  | .throws e => "Erro ao processar resposta: " ++ e
  | .returns text => text

/-- One entry of `selected_pages_details` in `_build_complete_result`
(rag_pipeline.py, lines 300-309): document, page, similarity, has_image. -/
def selected_detail (doc : SearchResult) : String × Option Int × Rat × Bool :=
  (doc.document_name, doc.page_number, doc.similarity, doc.has_image)

/-- Constructor-time configuration of `RAGPipeline` (rag_pipeline.py, lines 33-53). -/
structure PipelineConfig where
  max_candidates : Nat
  max_selected : Nat
  enable_reranking : Bool
  enable_image_fetching : Bool
deriving DecidableEq, Repr

/-- The successful result dict of `RAGPipeline._build_complete_result`
(rag_pipeline.py, lines 292-331). -/
structure CompleteResult where
  query : String
  transformed_query : String
  answer : String
  selected_pages : String
  selected_pages_details : List (String × Option Int × Rat × Bool)
  selected_pages_count : Nat
  justification : String
  total_candidates : Nat
  pipeline_config : PipelineConfig
deriving DecidableEq, Repr

/-- Model of `RAGPipeline._build_complete_result` (rag_pipeline.py, lines 292-331). -/
def build_complete_result (cfg : PipelineConfig) (original_query transformed_query : String)
    (selected_docs : List SearchResult) (answer justification : String)
    (total_candidates : Nat) : CompleteResult :=
  { query := original_query, transformed_query := transformed_query, answer := answer,
    selected_pages := String.intercalate " + " (selected_docs.map
      (fun doc => doc.document_name ++ " (p." ++ pyOptIntStr doc.page_number ++ ")")),
    selected_pages_details := selected_docs.map selected_detail,
    selected_pages_count := selected_docs.length,
    justification := justification, total_candidates := total_candidates,
    pipeline_config := cfg }

/-- The possible shapes of the dict returned by `search_and_answer`. -/
inductive PipelineOutcome where
  | simple (r : SimpleResponse)
  | error (msg : String)
  | complete (r : CompleteResult)
deriving DecidableEq, Repr

/-- One chat message `{role, content}`. -/
structure ChatMessage where
  role : String
  content : String
deriving DecidableEq, Repr

/-- The external services a pipeline run can invoke, for call accounting. -/
inductive ServiceCall where
  | transformCall
  | embedCall
  | searchCall
  | imageFetchCall
  | rerankCall
  | verifyCall
  | answerCall
deriving DecidableEq, Repr

/-- The behaviour of every external collaborator during one pipeline run:
the query transformer (an object wrapping its own cache and LLM client),
the Voyage embedder (`[]` embeds Python-falsy `None`/empty), the vector
searcher (the `documents` of its `SearchResults`), the per-URL image
fetch outcome, and the three LLM call behaviours. -/
structure PipelineEnv where
  transform : List ChatMessage → String
  embed : String → List Rat
  search : List Rat → List SearchResult
  fetchImage : String → Option String
  rerankLLM : LLMBehavior
  verifyLLM : LLMBehavior
  answerLLM : LLMBehavior

/-- ETAPA 1 of `RAGPipeline.search_and_answer` (rag_pipeline.py, lines 83-91):
with a truthy `chat_history` the transformer runs on the history extended
by the current query; with `None` or `[]` the raw query is used verbatim. -/
def transformed_for (env : PipelineEnv) (query : String)
    (chat_history : Option (List ChatMessage)) : String :=
  match chat_history with
  | none => query
  | some h =>
    if h.isEmpty then query
    else env.transform (h ++ [{ role := "user", content := query }])

/-- The service calls issued by ETAPA 1. -/
def transform_calls (chat_history : Option (List ChatMessage)) : List ServiceCall :=
  match chat_history with
  | none => []
  | some h => if h.isEmpty then [] else [ServiceCall.transformCall]

/-- ETAPA 4 of `search_and_answer` (rag_pipeline.py, lines 117-121): the
candidates are the retrieved documents, image-enriched when enabled. -/
def pipeline_candidates (cfg : PipelineConfig) (env : PipelineEnv)
    (documents : List SearchResult) : List SearchResult :=
  if cfg.enable_image_fetching then enrich_search_results env.fetchImage documents
  else documents

/-- The reranker the pipeline constructs (rag_pipeline.py, line 59):
`SearchReranker(client, max_candidates=max_candidates)` with the default
`max_tokens = 512` and the configured rerank model. -/
def pipeline_reranker (cfg : PipelineConfig) : SearchReranker :=
  { model := "rerank_model", max_tokens := 512, max_candidates := cfg.max_candidates }

/-- ETAPA 5 of `search_and_answer` (rag_pipeline.py, lines 123-136): the
selected documents come from the reranker when enabled, else they are the
top `max_selected` candidates. -/
def pipeline_selected (cfg : PipelineConfig) (env : PipelineEnv) (tq : String)
    (candidates : List SearchResult) : List SearchResult :=
  if cfg.enable_reranking then
    (rerank_results (pipeline_reranker cfg) env.rerankLLM tq candidates
      cfg.max_selected true).selected_docs
  else candidates.take cfg.max_selected

/-- The justification produced by ETAPA 5 (rag_pipeline.py, lines 131-136). -/
def pipeline_justification (cfg : PipelineConfig) (env : PipelineEnv) (tq : String)
    (candidates : List SearchResult) : String :=
  if cfg.enable_reranking then
    (rerank_results (pipeline_reranker cfg) env.rerankLLM tq candidates
      cfg.max_selected true).justification
  else "Top " ++ toString (candidates.take cfg.max_selected).length
    ++ " resultados por similaridade"

/-- The service calls issued by ETAPAs 1-5 when the run reaches reranking. -/
def retrieval_calls (cfg : PipelineConfig)
    (chat_history : Option (List ChatMessage)) : List ServiceCall :=
  transform_calls chat_history ++ [ServiceCall.embedCall, ServiceCall.searchCall]
    ++ (if cfg.enable_image_fetching then [ServiceCall.imageFetchCall] else [])
    ++ (if cfg.enable_reranking then [ServiceCall.rerankCall] else [])

/-- Model of `RAGPipeline.search_and_answer` (rag_pipeline.py, lines 66-168), together
with the list of external services invoked during the run.  The early
returns of the Python method appear as the successive `if` branches:
no-RAG simple response, embedding failure, no documents, failed relevance
verification, and the complete result.  Stage values that Python binds to
locals (`candidates`, `selected_docs`, `justification`) are the named
`pipeline_*` definitions above, applied to the same inputs. -/
def search_and_answer (cfg : PipelineConfig) (env : PipelineEnv) (query : String)
    (chat_history : Option (List ChatMessage)) : PipelineOutcome × List ServiceCall :=
  if !(needs_rag (transformed_for env query chat_history)) then
    (.simple (generate_simple_response query), transform_calls chat_history)
  else if (env.embed (transformed_for env query chat_history)).isEmpty then
    (.error "Falha ao gerar embedding da query",
     transform_calls chat_history ++ [ServiceCall.embedCall])
  else if (env.search (env.embed (transformed_for env query chat_history))).isEmpty then
    (.error "Nenhum documento relevante encontrado",
     transform_calls chat_history ++ [ServiceCall.embedCall, ServiceCall.searchCall])
  else if !(verify_relevance env.verifyLLM (transformed_for env query chat_history)
      (pipeline_selected cfg env (transformed_for env query chat_history)
        (pipeline_candidates cfg env
          (env.search (env.embed (transformed_for env query chat_history)))))) then
    (.error "A informação solicitada não foi encontrada de forma explícita nos documentos",
     retrieval_calls cfg chat_history ++ [ServiceCall.verifyCall])
  else
    (.complete (build_complete_result cfg query (transformed_for env query chat_history)
        (pipeline_selected cfg env (transformed_for env query chat_history)
          (pipeline_candidates cfg env
            (env.search (env.embed (transformed_for env query chat_history)))))
        (generate_contextual_answer env.answerLLM (transformed_for env query chat_history)
          (pipeline_selected cfg env (transformed_for env query chat_history)
            (pipeline_candidates cfg env
              (env.search (env.embed (transformed_for env query chat_history))))))
        (pipeline_justification cfg env (transformed_for env query chat_history)
          (pipeline_candidates cfg env
            (env.search (env.embed (transformed_for env query chat_history)))))
        (env.search (env.embed (transformed_for env query chat_history))).length),
     retrieval_calls cfg chat_history
       ++ [ServiceCall.verifyCall, ServiceCall.answerCall])

/-! ## Generic lemmas about the string primitives -/

theorem charListStarts_iff (needle hay : List Char) :
    charListStarts needle hay = true ↔ ∃ r, hay = needle ++ r := by
  induction needle generalizing hay with
  | nil =>
    simp [charListStarts]
  | cons a as ih =>
    cases hay with
    | nil => simp [charListStarts]
    | cons b bs =>
      simp only [charListStarts, Bool.and_eq_true, beq_iff_eq, ih]
      constructor
      · rintro ⟨rfl, r, rfl⟩
        exact ⟨r, rfl⟩
      · rintro ⟨r, h⟩
        injection h with h1 h2
        exact ⟨h1.symm, r, h2⟩

theorem charListContains_iff (hay needle : List Char) :
    charListContains hay needle = true ↔ ∃ a b, hay = a ++ needle ++ b := by
  induction hay with
  | nil =>
    simp only [charListContains, List.isEmpty_iff]
    constructor
    · intro h
      exact ⟨[], [], by simp [h]⟩
    · rintro ⟨a, b, h⟩
      rcases List.append_eq_nil.mp (List.append_eq_nil.mp h.symm).1 with ⟨-, h2⟩
      exact h2
  | cons c t ih =>
    simp only [charListContains, Bool.or_eq_true, charListStarts_iff, ih]
    constructor
    · rintro (⟨r, hr⟩ | ⟨a, b, rfl⟩)
      · exact ⟨[], r, by simpa using hr⟩
      · exact ⟨c :: a, b, rfl⟩
    · rintro ⟨a, b, h⟩
      cases a with
      | nil => exact Or.inl ⟨b, by simpa using h⟩
      | cons x xs =>
        injection h with h1 h2
        exact Or.inr ⟨xs, b, h2⟩

/-! ## C3 — `needs_rag` -/

/-- C3 (counterexample): `needs_rag` returns `false` for a string that merely
contains `"not applicable"` as a substring and is not (even case-insensitively)
equal to the sentinel, contradicting the claimed equality test. -/
theorem needs_rag_substring_cex :
    needs_rag "This is Not Applicable indeed" = false ∧
    pyLower "This is Not Applicable indeed" ≠ "not applicable" := by decide

/-- C3 (amended): `needs_rag t` returns `false` exactly when the lowercased
`t` contains `"not applicable"` as a contiguous substring (so case-insensitive
equality with the sentinel is a sufficient but not necessary condition). -/
theorem needs_rag_false_iff_contains (t : String) :
    needs_rag t = false ↔
      ∃ a b, (pyLower t).data = a ++ ("not applicable".data) ++ b := by
  have h : needs_rag t = false ↔ strContains (pyLower t) "not applicable" = true := by
    unfold needs_rag
    cases strContains (pyLower t) "not applicable" <;> simp
  rw [h]
  unfold strContains
  exact charListContains_iff _ _

/-! ## C8 — bounded FIFO caches -/

theorem cache_result_length_le (max_cache_size : Nat) (hmax : 1 ≤ max_cache_size)
    (cache : List (String × String)) (h : cache.length ≤ max_cache_size)
    (k v : String) :
    (cache_result max_cache_size cache k v).length ≤ max_cache_size := by
  unfold cache_result
  split
  · rename_i hge
    simp only [List.length_append, List.length_drop, List.length_singleton]
    omega
  · rename_i hlt
    simp only [List.length_append, List.length_singleton]
    omega

theorem cache_image_eq_cache_result (max_cache_size : Nat)
    (cache : List (String × String)) (k v : String) :
    cache_image max_cache_size cache k v = cache_result max_cache_size cache k v := rfl

/-- C8: starting from any state within the bound, every sequence of
insertions keeps both the query-transformation cache and the image cache at
or below `max_cache_size` entries, and an insertion into a full cache first
evicts the oldest-inserted (front) entry before appending the new one. -/
theorem caches_bounded_and_fifo (max_cache_size : Nat) (hmax : 1 ≤ max_cache_size) :
    (∀ init : List (String × String), init.length ≤ max_cache_size →
      ∀ inserts : List (String × String),
        (inserts.foldl (fun c kv => cache_result max_cache_size c kv.1 kv.2) init).length
            ≤ max_cache_size ∧
        (inserts.foldl (fun c kv => cache_image max_cache_size c kv.1 kv.2) init).length
            ≤ max_cache_size) ∧
    (∀ (oldest : String × String) (rest : List (String × String)) (k v : String),
      max_cache_size ≤ (oldest :: rest).length →
        cache_result max_cache_size (oldest :: rest) k v = rest ++ [(k, v)] ∧
        cache_image max_cache_size (oldest :: rest) k v = rest ++ [(k, v)]) := by
  constructor
  · have key : ∀ (inserts init : List (String × String)), init.length ≤ max_cache_size →
        (inserts.foldl (fun c kv => cache_result max_cache_size c kv.1 kv.2) init).length
          ≤ max_cache_size := by
      intro inserts
      induction inserts with
      | nil => intro init h; simpa using h
      | cons kv rest ih =>
        intro init h
        simp only [List.foldl_cons]
        exact ih _ (cache_result_length_le max_cache_size hmax init h kv.1 kv.2)
    intro init h inserts
    refine ⟨key inserts init h, ?_⟩
    simp only [cache_image_eq_cache_result]
    exact key inserts init h
  · intro oldest rest k v hfull
    have : cache_result max_cache_size (oldest :: rest) k v = rest ++ [(k, v)] := by
      unfold cache_result
      rw [if_pos hfull]
      simp
    exact ⟨this, by rw [cache_image_eq_cache_result]; exact this⟩

/-- C8 witness: with bound 2, inserting into the full cache
`[("a","1"), ("b","2")]` evicts `("a","1")`, the oldest entry. -/
theorem caches_bounded_and_fifo_witness :
    cache_result 2 [("a", "1"), ("b", "2")] "c" "3" = [("b", "2"), ("c", "3")] ∧
    cache_image 2 [("a", "1"), ("b", "2")] "c" "3" = [("b", "2"), ("c", "3")] :=
  (caches_bounded_and_fifo 2 (by decide)).2 ("a", "1") [("b", "2")] "c" "3" (by decide)

/-! ## C7 — rerank exception fallback -/

/-- C7: when the rerank LLM call raises (the call happens whenever the capped
candidate list does not have exactly one element), `rerank_results` selects
the first `max_selected` results in their original order and its
justification names the fallback reason. -/
theorem rerank_results_exception_fallback (r : SearchReranker) (query e : String)
    (search_results : List SearchResult) (max_selected : Nat) (include_images : Bool)
    (hne : search_results ≠ [])
    (hcall : (search_results.take r.max_candidates).length ≠ 1) :
    (rerank_results r (.throws e) query search_results max_selected
        include_images).selected_docs = search_results.take max_selected ∧
    (rerank_results r (.throws e) query search_results max_selected
        include_images).justification = "Fallback devido a erro: " ++ e := by
  unfold rerank_results
  rw [if_neg (by simpa [List.isEmpty_iff] using hne)]
  rw [if_neg hcall]
  exact ⟨rfl, rfl⟩

/-- Concrete documents used by witnesses and counterexamples. -/
def sampleDoc (i : Nat) : SearchResult :=
  { document_id := toString i, content := "conteudo " ++ toString i,
    document_name := "doc", page_number := some (Int.ofNat i), similarity := 0,
    image_url := none, image_filename_r2 := none, image_base64 := none,
    has_image := false, metadata := [] }

/-- C7 witness: a raised rerank call over two candidates falls back to the
first two results in order with the fallback justification. -/
theorem rerank_results_exception_fallback_witness :
    (rerank_results { model := "m", max_tokens := 512, max_candidates := 10 }
        (.throws "boom") "q" [sampleDoc 1, sampleDoc 2, sampleDoc 3] 2
        true).selected_docs = [sampleDoc 1, sampleDoc 2] ∧
    (rerank_results { model := "m", max_tokens := 512, max_candidates := 10 }
        (.throws "boom") "q" [sampleDoc 1, sampleDoc 2, sampleDoc 3] 2
        true).justification = "Fallback devido a erro: " ++ "boom" := by
  have h := rerank_results_exception_fallback
    { model := "m", max_tokens := 512, max_candidates := 10 } "q" "boom"
    [sampleDoc 1, sampleDoc 2, sampleDoc 3] 2 true (by decide) (by decide)
  exact ⟨h.1.trans (by decide), h.2⟩

/-! ## C9 — image enrichment is per-element, order-preserving and non-failing -/

/-- C9: `enrich_search_results` (a total function — the batch cannot fail)
returns a list of the same length whose `i`-th element is derived from the
`i`-th input: an element that needs no fetch, or whose fetch fails (returns
no payload or a falsy one), is returned unchanged; a successfully enriched
element carries the fetched base64 and `has_image = true` and agrees with
the original on every other field. -/
theorem enrich_search_results_frame (fetch : String → Option String)
    (search_results : List SearchResult) :
    (enrich_search_results fetch search_results).length = search_results.length ∧
    ∀ i orig out, search_results.get? i = some orig →
      (enrich_search_results fetch search_results).get? i = some out →
      ((pyTruthyOptStr orig.image_url && !(pyTruthyOptStr orig.image_base64)) = false →
        out = orig) ∧
      (∀ url, orig.image_url = some url →
        (pyTruthyOptStr orig.image_url && !(pyTruthyOptStr orig.image_base64)) = true →
        (fetch url = none → out = orig) ∧
        (fetch url = some "" → out = orig) ∧
        (∀ b64, fetch url = some b64 → b64 ≠ "" →
          out.image_base64 = some b64 ∧ out.has_image = true ∧
          out.document_id = orig.document_id ∧ out.content = orig.content ∧
          out.document_name = orig.document_name ∧
          out.page_number = orig.page_number ∧
          out.similarity = orig.similarity ∧ out.image_url = orig.image_url ∧
          out.image_filename_r2 = orig.image_filename_r2 ∧
          out.metadata = orig.metadata)) := by
  refine ⟨by simp [enrich_search_results], ?_⟩
  intro i orig out h1 h2
  have hout : out = enrich_one fetch orig := by
    rw [enrich_search_results, List.get?_map, h1] at h2
    exact (Option.some_injective _ h2).symm
  subst hout
  constructor
  · intro hguard
    unfold enrich_one
    rw [hguard]
    simp
  · intro url hurl hguard
    refine ⟨?_, ?_, ?_⟩
    · intro hf
      unfold enrich_one
      rw [hguard, hurl]
      simp [hf]
    · intro hf
      unfold enrich_one
      rw [hguard, hurl]
      simp [hf]
    · intro b64 hf hb
      unfold enrich_one
      rw [hguard, hurl]
      simp [hf, hb]

/-- A concrete candidate carrying an image reference but no inline bytes. -/
def imageDoc : SearchResult :=
  { document_id := "42", content := "figura", document_name := "doc",
    page_number := some 7, similarity := 0, image_url := some "http://img/7.png",
    image_filename_r2 := some "7.png", image_base64 := none, has_image := false,
    metadata := [] }

/-- C9 witness: enriching `[imageDoc]` with a fetch that returns `"B64"`
keeps the length, attaches the payload and flips `has_image`, leaving the
content untouched. -/
theorem enrich_search_results_frame_witness :
    (enrich_search_results (fun _ => some "B64") [imageDoc]).length = 1 ∧
    ∀ out, (enrich_search_results (fun _ => some "B64") [imageDoc]).get? 0 = some out →
      out.image_base64 = some "B64" ∧ out.has_image = true ∧
      out.content = imageDoc.content := by
  have h := enrich_search_results_frame (fun _ => some "B64") [imageDoc]
  refine ⟨h.1, ?_⟩
  intro out hout
  have h2 := (h.2 0 imageDoc out rfl hout).2 "http://img/7.png" rfl (by decide)
  have h3 := h2.2.2 "B64" rfl (by decide)
  exact ⟨h3.1, h3.2.1, h3.2.2.2.1⟩

/-! ## Lemmas about the rerank response scanner -/

theorem parseLine_mem_bound (n : Nat) (st : List Nat × String) (raw : String)
    (h : ∀ k ∈ st.1, 1 ≤ k ∧ k ≤ n) :
    ∀ k ∈ (parseLine n st raw).1, 1 ≤ k ∧ k ≤ n := by
  unfold parseLine
  split
  · intro k hk
    simp only [List.mem_filter, Bool.and_eq_true, decide_eq_true_eq] at hk
    exact hk.2
  · split
    · intro k hk
      exact h k hk
    · exact h

theorem parsed_state_mem_bound (text : String) (n : Nat) :
    ∀ k ∈ (parsed_state text n).1, 1 ≤ k ∧ k ≤ n := by
  unfold parsed_state
  generalize pySplitlines text = lines
  suffices key : ∀ (st : List Nat × String), (∀ k ∈ st.1, 1 ≤ k ∧ k ≤ n) →
      ∀ k ∈ (lines.foldl (parseLine n) st).1, 1 ≤ k ∧ k ≤ n by
    exact key _ (by simp)
  induction lines with
  | nil => intro st h; simpa using h
  | cons l rest ih =>
    intro st h
    simp only [List.foldl_cons]
    exact ih _ (parseLine_mem_bound n st l h)

theorem filterMap_get_length (candidates : List SearchResult) (nums : List Nat)
    (h : ∀ k ∈ nums, 1 ≤ k ∧ k ≤ candidates.length) :
    (nums.filterMap (fun num => candidates.get? (num - 1))).length = nums.length := by
  induction nums with
  | nil => rfl
  | cons a t ih =>
    have ha := h a (by simp)
    have hlt : a - 1 < candidates.length := by omega
    simp only [List.filterMap_cons, List.get?_eq_get hlt, List.length_cons,
      ih (fun k hk => h k (by simp [hk]))]

/-- The selection produced by `rerank_results` is never empty for a non-empty
input with a positive `max_selected`, whatever the LLM did. -/
theorem rerank_results_selected_ne (r : SearchReranker) (llm : LLMBehavior)
    (query : String) (search_results : List SearchResult) (max_selected : Nat)
    (include_images : Bool) (hne : search_results ≠ []) (hms : 1 ≤ max_selected) :
    (rerank_results r llm query search_results max_selected
        include_images).selected_docs ≠ [] := by
  have htake : search_results.take max_selected ≠ [] := by
    cases search_results with
    | nil => exact absurd rfl hne
    | cons a t =>
      cases max_selected with
      | zero => omega
      | succ m => simp
  unfold rerank_results
  rw [if_neg (by simpa [List.isEmpty_iff] using hne)]
  by_cases h1 : (search_results.take r.max_candidates).length = 1
  · rw [if_pos h1]
    simp [single_candidate_result]
  · rw [if_neg h1]
    cases llm with
    | throws e => simpa [rerank_fallback_result] using htake
    | returns text =>
      dsimp only
      unfold parse_rerank_response
      by_cases hnums :
          (parsed_state text (search_results.take r.max_candidates).length).1.isEmpty
      · rw [if_pos hnums]
        cases hc : search_results.take r.max_candidates with
        | nil => simpa [rerank_fallback_result] using htake
        | cons c cs => simp
      · rw [if_neg hnums]
        dsimp only
        intro hcontra
        have hlen := filterMap_get_length (search_results.take r.max_candidates)
          (parsed_state text (search_results.take r.max_candidates).length).1
          (parsed_state_mem_bound text _)
        rw [hcontra] at hlen
        simp only [List.length_nil] at hlen
        exact hnums (List.isEmpty_iff.mpr (List.length_eq_zero.mp hlen.symm))

/-! ## C1 — rerank non-emptiness under every LLM behaviour -/

/-- C1: for every non-empty list of search results (and the positive
`max_selected` the pipeline always passes), `rerank_results` returns a
`RerankedResult` selecting at least one document, whether the LLM call
returns a parseable response, a response with no in-range indices, or
raises an exception. -/
theorem rerank_results_selected_nonempty (r : SearchReranker) (llm : LLMBehavior)
    (query : String) (search_results : List SearchResult) (max_selected : Nat)
    (include_images : Bool) (hne : search_results ≠ []) (hms : 1 ≤ max_selected) :
    1 ≤ (rerank_results r llm query search_results max_selected
        include_images).selected_docs.length :=
  List.length_pos.mpr (rerank_results_selected_ne r llm query search_results
    max_selected include_images hne hms)

/-- C1 witness: a response with no parseable in-range indices still selects
one document. -/
theorem rerank_results_selected_nonempty_witness :
    1 ≤ (rerank_results { model := "m", max_tokens := 512, max_candidates := 10 }
        (.returns "nenhuma página listada") "q" [sampleDoc 1, sampleDoc 2] 2
        true).selected_docs.length :=
  rerank_results_selected_nonempty
    { model := "m", max_tokens := 512, max_candidates := 10 }
    (.returns "nenhuma página listada") "q" [sampleDoc 1, sampleDoc 2] 2 true
    (by decide) (by decide)

/-! ## C2 — the claimed `max_selected` cap does not hold on the parsed path -/

/-- C2 (counterexample): with three candidates and `max_selected = 2`, an LLM
response listing the three in-range indices yields a selection of three
documents, exceeding `min(max_selected, candidateCount) = 2`: the parser
never truncates to `max_selected`. -/
theorem rerank_selection_cap_cex :
    ¬ ((rerank_results { model := "m", max_tokens := 512, max_candidates := 10 }
        (.returns "Páginas_Selecionadas: [1, 2, 3]\nJustificativa: todas")
        "q" [sampleDoc 1, sampleDoc 2, sampleDoc 3] 2 true).selected_docs.length
      ≤ min 2 [sampleDoc 1, sampleDoc 2, sampleDoc 3].length) := by decide

/-- C2 (amended): for a non-empty candidate list and `max_selected ≥ 1` the
selection always has at least one element; when the LLM call raises (on the
multi-candidate path) the selection has exactly `min(max_selected,
candidateCount)` elements; but when the call returns a response over at
least two capped candidates, the selection has `max 1 k` elements where `k`
is the number of in-range indices parsed from the response — `k` is not
truncated to `max_selected`, so such a response can select more than
`max_selected` documents. -/
theorem rerank_selection_bounds_amended (r : SearchReranker) (llm : LLMBehavior)
    (query : String) (search_results : List SearchResult) (max_selected : Nat)
    (include_images : Bool) (hne : search_results ≠ []) (hms : 1 ≤ max_selected) :
    1 ≤ (rerank_results r llm query search_results max_selected
        include_images).selected_docs.length ∧
    (∀ e, llm = .throws e → (search_results.take r.max_candidates).length ≠ 1 →
      (rerank_results r llm query search_results max_selected
          include_images).selected_docs.length
        = min max_selected search_results.length) ∧
    (∀ text, llm = .returns text →
      2 ≤ (search_results.take r.max_candidates).length →
      (rerank_results r llm query search_results max_selected
          include_images).selected_docs.length
        = max 1 (parsed_state text
            (search_results.take r.max_candidates).length).1.length) := by
  refine ⟨List.length_pos.mpr (rerank_results_selected_ne r llm query search_results
    max_selected include_images hne hms), ?_, ?_⟩
  · rintro e rfl hcall
    unfold rerank_results
    rw [if_neg (by simpa [List.isEmpty_iff] using hne), if_neg hcall]
    simp [rerank_fallback_result]
  · rintro text rfl h2
    have hlen1 : (search_results.take r.max_candidates).length ≠ 1 := by omega
    unfold rerank_results
    rw [if_neg (by simpa [List.isEmpty_iff] using hne), if_neg hlen1]
    dsimp only
    unfold parse_rerank_response
    by_cases hnums :
        (parsed_state text (search_results.take r.max_candidates).length).1.isEmpty
    · rw [if_pos hnums]
      cases hc : search_results.take r.max_candidates with
      | nil => rw [hc] at h2; simp at h2
      | cons c cs =>
        have hzero : (parsed_state text (cs.length + 1)).1.length = 0 := by
          have h0 : (parsed_state text
              (search_results.take r.max_candidates).length).1.length = 0 := by
            simpa [List.isEmpty_iff, List.length_eq_zero] using hnums
          rw [hc] at h0
          simpa using h0
        simp [hzero]
    · rw [if_neg hnums]
      have hlen := filterMap_get_length (search_results.take r.max_candidates)
        (parsed_state text (search_results.take r.max_candidates).length).1
        (parsed_state_mem_bound text _)
      have hpos : 1 ≤ (parsed_state text
          (search_results.take r.max_candidates).length).1.length := by
        rcases Nat.eq_zero_or_pos (parsed_state text
            (search_results.take r.max_candidates).length).1.length with h0 | h0
        · exact absurd (List.isEmpty_iff.mpr (List.length_eq_zero.mp h0)) hnums
        · exact h0
      dsimp only
      rw [hlen, Nat.max_eq_right hpos]

/-- C2 witness (for the amended claim): an exception over three candidates
with `max_selected = 2` selects exactly `min 2 3 = 2` documents. -/
theorem rerank_selection_bounds_amended_witness :
    (rerank_results { model := "m", max_tokens := 512, max_candidates := 10 }
        (.throws "boom") "q" [sampleDoc 1, sampleDoc 2, sampleDoc 3] 2
        true).selected_docs.length
      = min 2 [sampleDoc 1, sampleDoc 2, sampleDoc 3].length :=
  (rerank_selection_bounds_amended
    { model := "m", max_tokens := 512, max_candidates := 10 }
    (.throws "boom") "q" [sampleDoc 1, sampleDoc 2, sampleDoc 3] 2 true
    (by decide) (by decide)).2.1 "boom" rfl (by decide)

/-! ## Pipeline-level lemmas -/

theorem transform_calls_cases (chat_history : Option (List ChatMessage)) :
    transform_calls chat_history = [] ∨
    transform_calls chat_history = [ServiceCall.transformCall] := by
  cases chat_history with
  | none => exact Or.inl rfl
  | some h =>
    by_cases he : h.isEmpty
    · exact Or.inl (by simp [transform_calls, he])
    · exact Or.inr (by simp [transform_calls, he])

theorem mem_transform_calls (c : ServiceCall) (chat_history : Option (List ChatMessage))
    (hc : c ∈ transform_calls chat_history) : c = ServiceCall.transformCall := by
  rcases transform_calls_cases chat_history with h | h <;> rw [h] at hc
  · simp at hc
  · simpa using hc

/-! ## C4 — `needsRetrieval = false` short-circuits every retrieval service -/

/-- C4: whenever the transformed query of the turn does not need retrieval,
`search_and_answer` returns the canned simple response and the only service
possibly invoked is the query transformer itself — the embedder, vector
store, image fetcher, reranker, verifier and answer synthesizer are never
called. -/
theorem search_and_answer_short_circuit (cfg : PipelineConfig) (env : PipelineEnv)
    (query : String) (chat_history : Option (List ChatMessage))
    (h : needs_rag (transformed_for env query chat_history) = false) :
    (search_and_answer cfg env query chat_history).1
        = .simple (generate_simple_response query) ∧
    ∀ c ∈ (search_and_answer cfg env query chat_history).2,
      c = ServiceCall.transformCall := by
  have hrun : search_and_answer cfg env query chat_history
      = (.simple (generate_simple_response query), transform_calls chat_history) := by
    simp only [search_and_answer, h, Bool.not_false, if_true]
  rw [hrun]
  exact ⟨rfl, fun c hc => mem_transform_calls c chat_history hc⟩

/-- C4 witness: a greeting turn with history: the transformer labels it
not-applicable, the result is the canned greeting and no retrieval service
ran. -/
theorem search_and_answer_short_circuit_witness :
    ((search_and_answer
        { max_candidates := 10, max_selected := 2,
          enable_reranking := true, enable_image_fetching := true }
        { transform := fun _ => "Not applicable", embed := fun _ => [1],
          search := fun _ => [sampleDoc 1], fetchImage := fun _ => none,
          rerankLLM := .returns "x", verifyLLM := .returns "Sim",
          answerLLM := .returns "resposta" }
        "hello" (some [{ role := "user", content := "oi" }])).1
      = .simple (generate_simple_response "hello")) ∧
    ∀ c ∈ (search_and_answer
        { max_candidates := 10, max_selected := 2,
          enable_reranking := true, enable_image_fetching := true }
        { transform := fun _ => "Not applicable", embed := fun _ => [1],
          search := fun _ => [sampleDoc 1], fetchImage := fun _ => none,
          rerankLLM := .returns "x", verifyLLM := .returns "Sim",
          answerLLM := .returns "resposta" }
        "hello" (some [{ role := "user", content := "oi" }])).2,
      c = ServiceCall.transformCall :=
  search_and_answer_short_circuit _ _ "hello"
    (some [{ role := "user", content := "oi" }]) (by decide)

/-! ## C10 — no history means no query transformation -/

/-- C10: with `chat_history` equal to `None` or the empty list, the
transformed query used for retrieval is the raw input query verbatim and
the query transformer is never invoked during the run. -/
theorem search_and_answer_no_history_no_transform (cfg : PipelineConfig)
    (env : PipelineEnv) (query : String) (chat_history : Option (List ChatMessage))
    (h : chat_history = none ∨ chat_history = some []) :
    transformed_for env query chat_history = query ∧
    ServiceCall.transformCall ∉ (search_and_answer cfg env query chat_history).2 := by
  have htf : transformed_for env query chat_history = query := by
    rcases h with rfl | rfl
    · rfl
    · simp [transformed_for]
  have htc : transform_calls chat_history = [] := by
    rcases h with rfl | rfl
    · rfl
    · simp [transform_calls]
  refine ⟨htf, ?_⟩
  simp only [search_and_answer, htc]
  split_ifs <;>
    by_cases hI : cfg.enable_image_fetching <;>
    by_cases hR : cfg.enable_reranking <;>
    simp [retrieval_calls, htc, hI, hR]

/-- C10 witness: with `chat_history = none` a full run uses the raw query
and never calls the transformer. -/
theorem search_and_answer_no_history_no_transform_witness :
    transformed_for
        { transform := fun _ => "t", embed := fun _ => [1],
          search := fun _ => [sampleDoc 1, sampleDoc 2], fetchImage := fun _ => none,
          rerankLLM := .throws "x", verifyLLM := .returns "Sim",
          answerLLM := .returns "resposta" }
        "qual a arquitetura?" none = "qual a arquitetura?" ∧
    ServiceCall.transformCall ∉ (search_and_answer
        { max_candidates := 10, max_selected := 2,
          enable_reranking := true, enable_image_fetching := true }
        { transform := fun _ => "t", embed := fun _ => [1],
          search := fun _ => [sampleDoc 1, sampleDoc 2], fetchImage := fun _ => none,
          rerankLLM := .throws "x", verifyLLM := .returns "Sim",
          answerLLM := .returns "resposta" }
        "qual a arquitetura?" none).2 :=
  search_and_answer_no_history_no_transform _ _ "qual a arquitetura?" none (Or.inl rfl)

theorem take_ne_nil {α : Type} (l : List α) (n : Nat) (hl : l ≠ []) (hn : 1 ≤ n) :
    l.take n ≠ [] := by
  cases l with
  | nil => exact absurd rfl hl
  | cons a t =>
    cases n with
    | zero => omega
    | succ m => simp

/-- Whenever at least one document was retrieved and `max_selected` is
positive, the pipeline's selection stage yields a non-empty selection,
whatever the reranker's LLM did. -/
theorem pipeline_selected_ne (cfg : PipelineConfig) (env : PipelineEnv) (tq : String)
    (documents : List SearchResult) (hdocs : documents ≠ [])
    (hms : 1 ≤ cfg.max_selected) :
    pipeline_selected cfg env tq (pipeline_candidates cfg env documents) ≠ [] := by
  have hcand : pipeline_candidates cfg env documents ≠ [] := by
    unfold pipeline_candidates
    split
    · simpa [enrich_search_results, List.map_eq_nil] using hdocs
    · exact hdocs
  unfold pipeline_selected
  split
  · exact rerank_results_selected_ne _ _ _ _ _ _ hcand hms
  · exact take_ne_nil _ _ hcand hms

theorem verify_answer_notin_retrieval_calls (cfg : PipelineConfig)
    (chat_history : Option (List ChatMessage)) :
    ServiceCall.verifyCall ∉ retrieval_calls cfg chat_history ∧
    ServiceCall.answerCall ∉ retrieval_calls cfg chat_history := by
  rcases transform_calls_cases chat_history with htc | htc <;>
    by_cases hI : cfg.enable_image_fetching <;>
    by_cases hR : cfg.enable_reranking <;>
    simp [retrieval_calls, htc, hI, hR]

/-! ## C6 — a failed relevance verification gates the answer synthesizer -/

/-- C6: if the relevance verifier answers negatively (a returned reply with
no affirmative token — and an empty selection also verifies `false`), then
whenever the run reaches the verification stage its result is the
"insufficient evidence" variant, and the answer synthesizer is never
invoked in any run. -/
theorem search_and_answer_verify_false_gates (cfg : PipelineConfig)
    (env : PipelineEnv) (query : String) (chat_history : Option (List ChatMessage))
    (t : String) (hllm : env.verifyLLM = LLMBehavior.returns t)
    (hneg : strContains (pyLower t) "sim" = false) :
    ServiceCall.answerCall ∉ (search_and_answer cfg env query chat_history).2 ∧
    (ServiceCall.verifyCall ∈ (search_and_answer cfg env query chat_history).2 →
      (search_and_answer cfg env query chat_history).1 =
        .error "A informação solicitada não foi encontrada de forma explícita nos documentos") := by
  have hver : ∀ (q : String) (sel : List SearchResult),
      verify_relevance env.verifyLLM q sel = false := by
    intro q sel
    unfold verify_relevance
    rw [hllm]
    split
    · rfl
    · exact hneg
  constructor
  · simp only [search_and_answer, hver, Bool.not_false, if_true]
    split_ifs <;>
      first
        | (intro hmem
           exact absurd (mem_transform_calls _ chat_history hmem) (by decide))
        | (intro hmem
           rcases transform_calls_cases chat_history with htc | htc <;>
             rw [htc] at hmem <;> exact absurd hmem (by decide))
        | (intro hmem
           rcases List.mem_append.mp hmem with hmem' | hmem'
           · exact absurd hmem'
               (verify_answer_notin_retrieval_calls cfg chat_history).2
           · exact absurd hmem' (by decide))
  · intro hmem
    simp only [search_and_answer, hver, Bool.not_false, if_true] at hmem ⊢
    split_ifs at hmem ⊢ <;>
      first
        | rfl
        | (exact absurd (mem_transform_calls _ chat_history hmem) (by decide))
        | (rcases transform_calls_cases chat_history with htc | htc <;>
             rw [htc] at hmem <;> exact absurd hmem (by decide))

/-- C6 witness: a run that reaches verification with a negative verifier
reply ends in the insufficient-evidence result and never calls the answer
synthesizer. -/
theorem search_and_answer_verify_false_gates_witness :
    ServiceCall.answerCall ∉ (search_and_answer
        { max_candidates := 10, max_selected := 2,
          enable_reranking := false, enable_image_fetching := false }
        { transform := fun _ => "t", embed := fun _ => [1],
          search := fun _ => [sampleDoc 1, sampleDoc 2], fetchImage := fun _ => none,
          rerankLLM := .returns "x", verifyLLM := .returns "Não",
          answerLLM := .returns "resposta" }
        "quais resultados?" none).2 ∧
    (ServiceCall.verifyCall ∈ (search_and_answer
        { max_candidates := 10, max_selected := 2,
          enable_reranking := false, enable_image_fetching := false }
        { transform := fun _ => "t", embed := fun _ => [1],
          search := fun _ => [sampleDoc 1, sampleDoc 2], fetchImage := fun _ => none,
          rerankLLM := .returns "x", verifyLLM := .returns "Não",
          answerLLM := .returns "resposta" }
        "quais resultados?" none).2 →
      (search_and_answer
        { max_candidates := 10, max_selected := 2,
          enable_reranking := false, enable_image_fetching := false }
        { transform := fun _ => "t", embed := fun _ => [1],
          search := fun _ => [sampleDoc 1, sampleDoc 2], fetchImage := fun _ => none,
          rerankLLM := .returns "x", verifyLLM := .returns "Não",
          answerLLM := .returns "resposta" }
        "quais resultados?" none).1 =
        .error "A informação solicitada não foi encontrada de forma explícita nos documentos") :=
  search_and_answer_verify_false_gates _ _ "quais resultados?" none "Não" rfl (by decide)

/-! ## C5 — verifier exceptions default to relevant -/

/-- C5: with a non-empty selection, an exception in the verification LLM
call makes `_verify_relevance` return `true`, and consequently a pipeline
run (with the positive `max_selected` the pipeline always passes) that
reaches the verification stage under a throwing verifier proceeds to the
answer-synthesis call instead of refusing. -/
theorem verify_relevance_throws_true (query e : String)
    (selected_docs : List SearchResult) (hne : selected_docs ≠ []) :
    verify_relevance (.throws e) query selected_docs = true ∧
    (∀ (cfg : PipelineConfig) (env : PipelineEnv) (q : String)
        (hist : Option (List ChatMessage)),
      env.verifyLLM = LLMBehavior.throws e → 1 ≤ cfg.max_selected →
      ServiceCall.verifyCall ∈ (search_and_answer cfg env q hist).2 →
      ServiceCall.answerCall ∈ (search_and_answer cfg env q hist).2) := by
  constructor
  · unfold verify_relevance
    rw [if_neg (by simpa [List.isEmpty_iff] using hne)]
  · intro cfg env q hist hllm hms hmem
    have hver : ∀ (qq : String) (sel : List SearchResult), sel ≠ [] →
        verify_relevance env.verifyLLM qq sel = true := by
      intro qq sel hsel
      unfold verify_relevance
      rw [hllm, if_neg (by simpa [List.isEmpty_iff] using hsel)]
    simp only [search_and_answer] at hmem ⊢
    split_ifs at hmem ⊢ with h1 h2 h3 h4
    · exact absurd (mem_transform_calls _ hist hmem) (by decide)
    · rcases transform_calls_cases hist with htc | htc <;>
        rw [htc] at hmem <;> exact absurd hmem (by decide)
    · rcases transform_calls_cases hist with htc | htc <;>
        rw [htc] at hmem <;> exact absurd hmem (by decide)
    · exfalso
      have hdocs : env.search (env.embed (transformed_for env q hist)) ≠ [] := by
        simpa [List.isEmpty_iff] using h3
      have := hver (transformed_for env q hist)
        (pipeline_selected cfg env (transformed_for env q hist)
          (pipeline_candidates cfg env
            (env.search (env.embed (transformed_for env q hist)))))
        (pipeline_selected_ne cfg env _ _ hdocs hms)
      rw [this] at h4
      simp at h4
    · simp

/-- C5 witness: two documents, a throwing verifier: verification returns
`true` and a concrete run that reaches verification also calls the
synthesizer. -/
theorem verify_relevance_throws_true_witness :
    verify_relevance (.throws "timeout") "q" [sampleDoc 1] = true ∧
    (∀ (cfg : PipelineConfig) (env : PipelineEnv) (q : String)
        (hist : Option (List ChatMessage)),
      env.verifyLLM = LLMBehavior.throws "timeout" → 1 ≤ cfg.max_selected →
      ServiceCall.verifyCall ∈ (search_and_answer cfg env q hist).2 →
      ServiceCall.answerCall ∈ (search_and_answer cfg env q hist).2) :=
  verify_relevance_throws_true "q" "timeout" [sampleDoc 1] (by decide)

end SystemRag
